import Mathlib

/-!
Verification development for the Dify pipeline adapter
(`dify_pipeline_local.py`).

The development shallowly embeds the adapter's request-construction and
response-decoding logic:

* `Json` models Python values produced by `json.loads` (numbers are kept
  as their raw lexemes, since the adapter never computes with them).
* `dSet` / `dGet` / `dictUpdate` model Python `dict` assignment, lookup
  and `dict.update` (insertion order preserved, assignment to an existing
  key replaces in place).
* The adapter's shared template `self.data_schema` is a dict whose only
  nested mutable structure is the single `"inputs"` dict allocated by
  `DifySchema.get_schema` at `__init__` time.  The embedding therefore
  represents the template as a top-level `Dict` whose `"inputs"` entry is
  the marker `Val.inputsRef`, plus a separate `InputsDict` holding the
  contents of that one shared nested dict.  Python's shallow
  `dict.copy()` in `pipe` copies the top level but keeps the alias to
  the nested dict, which the embedding reflects by threading the
  `InputsDict` cell through the call.
* `parseJson` is an executable JSON parser modelling `json.loads`
  (fuel-based so that all definitions compute inside the kernel).
* `pipe` models `Pipeline.pipe` as a function of the configuration, the
  pre-built schema, the user message, the caller-context body and the
  transport (`requests.post` is modelled as a function from the issued
  `Request` to either a transport error or an `HttpResponse`).
-/

/-- Python values as produced by `json.loads`.  A JSON number is kept as
its raw lexeme (`num`), since the adapter never performs arithmetic on
parsed values. -/
inductive Json where
  | null
  | bool (b : Bool)
  | num (raw : String)
  | str (s : String)
  | arr (xs : List Json)
  | obj (fields : List (String × Json))
deriving Repr

/-- Python `d[k] = v` on an insertion-ordered dictionary represented as an
association list: replace in place when the key is present, append
otherwise. -/
def dSet {α : Type} (d : List (String × α)) (k : String) (v : α) : List (String × α) :=
  match d with
  | [] => [(k, v)]
  | (k', v') :: rest => if k' = k then (k, v) :: rest else (k', v') :: dSet rest k v

/-- Python `d[k]` lookup (keys are unique because every construction in
this development goes through `dSet`). -/
def dGet {α : Type} (d : List (String × α)) (k : String) : Option α :=
  match d with
  | [] => none
  | (k', v) :: rest => if k' = k then some v else dGet rest k

/-- Python `d.update(e)`: fold `dSet` over the entries of `e` in order. -/
def dictUpdate {α : Type} (d e : List (String × α)) : List (String × α) :=
  e.foldl (fun acc kv => dSet acc kv.1 kv.2) d

/- The special characters of the JSON grammar, defined by code point. -/

def chQuote : Char := Char.ofNat 34
def chBackslash : Char := Char.ofNat 92
def chLBrace : Char := Char.ofNat 123
def chRBrace : Char := Char.ofNat 125
def chLBrack : Char := Char.ofNat 91
def chRBrack : Char := Char.ofNat 93
def chNL : Char := Char.ofNat 10
def chCR : Char := Char.ofNat 13
def chTab : Char := Char.ofNat 9
def chBS : Char := Char.ofNat 8
def chFF : Char := Char.ofNat 12

/-- JSON insignificant whitespace. -/
def isJsonWs (c : Char) : Bool := c = ' ' || c = chTab || c = chNL || c = chCR

/-- Drop leading JSON whitespace. -/
def skipWs : List Char → List Char
  | [] => []
  | c :: cs => if isJsonWs c then skipWs cs else c :: cs

/-- Value of a hexadecimal digit. -/
def hexVal (c : Char) : Option Nat :=
  if '0' ≤ c ∧ c ≤ '9' then some (c.toNat - 48)
  else if 'a' ≤ c ∧ c ≤ 'f' then some (c.toNat - 87)
  else if 'A' ≤ c ∧ c ≤ 'F' then some (c.toNat - 55)
  else none

/-- Parse the body of a JSON string literal (the opening quote already
consumed), handling the JSON escapes; raw control characters are
rejected as `json.loads` does. -/
def parseStringBody : List Char → List Char → Option (String × List Char)
  | [], _ => none
  | c :: cs, acc =>
    if c = chQuote then some (⟨acc.reverse⟩, cs)
    else if c = chBackslash then
      match cs with
      | [] => none
      | e :: cs2 =>
        if e = chQuote then parseStringBody cs2 (chQuote :: acc)
        else if e = chBackslash then parseStringBody cs2 (chBackslash :: acc)
        else if e = '/' then parseStringBody cs2 ('/' :: acc)
        else if e = 'n' then parseStringBody cs2 (chNL :: acc)
        else if e = 't' then parseStringBody cs2 (chTab :: acc)
        else if e = 'r' then parseStringBody cs2 (chCR :: acc)
        else if e = 'b' then parseStringBody cs2 (chBS :: acc)
        else if e = 'f' then parseStringBody cs2 (chFF :: acc)
        else if e = 'u' then
          match cs2 with
          | h1 :: h2 :: h3 :: h4 :: cs3 =>
            match hexVal h1, hexVal h2, hexVal h3, hexVal h4 with
            | some a, some b, some c2, some d =>
              parseStringBody cs3 (Char.ofNat (((a * 16 + b) * 16 + c2) * 16 + d) :: acc)
            | _, _, _, _ => none
          | _ => none
        else none
    else if c.toNat < 32 then none
    else parseStringBody cs (c :: acc)

/-- Take the maximal run of decimal digits. -/
def spanDigits : List Char → (List Char × List Char)
  | [] => ([], [])
  | c :: cs =>
    if '0' ≤ c ∧ c ≤ '9' then
      let (d, r) := spanDigits cs
      (c :: d, r)
    else ([], c :: cs)

/-- JSON integer part: `0` or a nonzero digit followed by digits. -/
def parseIntPart : List Char → Option (List Char × List Char)
  | [] => none
  | c :: cs =>
    if c = '0' then some ([c], cs)
    else if '1' ≤ c ∧ c ≤ '9' then
      let (d, r) := spanDigits cs
      some (c :: d, r)
    else none

/-- Optional JSON fraction part. -/
def parseFracPart : List Char → Option (List Char × List Char)
  | '.' :: cs =>
    (match spanDigits cs with
     | ([], _) => none
     | (d, r) => some ('.' :: d, r))
  | cs => some ([], cs)

/-- Optional JSON exponent part. -/
def parseExpPart : List Char → Option (List Char × List Char)
  | [] => some ([], [])
  | c :: cs =>
    if c = 'e' ∨ c = 'E' then
      match cs with
      | [] => none
      | s :: cs2 =>
        if s = '+' ∨ s = '-' then
          match spanDigits cs2 with
          | ([], _) => none
          | (d, r) => some (c :: s :: d, r)
        else
          match spanDigits (s :: cs2) with
          | ([], _) => none
          | (d, r) => some (c :: d, r)
    else some ([], c :: cs)

/-- A full JSON number; the raw lexeme is returned. -/
def parseNumber (cs : List Char) : Option (String × List Char) :=
  let (neg, cs1) :=
    match cs with
    | c :: rest => if c = '-' then ([c], rest) else ([], cs)
    | [] => ([], [])
  match parseIntPart cs1 with
  | none => none
  | some (ip, cs2) =>
    match parseFracPart cs2 with
    | none => none
    | some (fp, cs3) =>
      match parseExpPart cs3 with
      | none => none
      | some (ep, cs4) => some (⟨neg ++ ip ++ fp ++ ep⟩, cs4)

mutual

/-- Parse one JSON value (fuel-indexed so that everything computes). -/
def parseVal : Nat → List Char → Option (Json × List Char)
  | 0, _ => none
  | fuel + 1, cs =>
    match skipWs cs with
    | [] => none
    | c :: rest =>
      if c = chLBrace then
        match skipWs rest with
        | [] => none
        | d :: rest2 =>
          if d = chRBrace then some (.obj [], rest2)
          else parseMembers fuel (d :: rest2) []
      else if c = chLBrack then
        match skipWs rest with
        | [] => none
        | d :: rest2 =>
          if d = chRBrack then some (.arr [], rest2)
          else parseItems fuel (d :: rest2) []
      else if c = chQuote then
        match parseStringBody rest [] with
        | some (s, rest2) => some (.str s, rest2)
        | none => none
      else if c = 't' then
        match rest with
        | 'r' :: 'u' :: 'e' :: rest2 => some (.bool true, rest2)
        | _ => none
      else if c = 'f' then
        match rest with
        | 'a' :: 'l' :: 's' :: 'e' :: rest2 => some (.bool false, rest2)
        | _ => none
      else if c = 'n' then
        match rest with
        | 'u' :: 'l' :: 'l' :: rest2 => some (.null, rest2)
        | _ => none
      else
        match parseNumber (c :: rest) with
        | some (raw, rest2) => some (.num raw, rest2)
        | none => none

/-- Parse the members of a JSON object after its opening brace (duplicate
keys overwrite in place, as in a Python dict). -/
def parseMembers : Nat → List Char → List (String × Json) → Option (Json × List Char)
  | 0, _, _ => none
  | fuel + 1, cs, acc =>
    match skipWs cs with
    | [] => none
    | q :: rest =>
      if q = chQuote then
        match parseStringBody rest [] with
        | none => none
        | some (k, rest2) =>
          match skipWs rest2 with
          | [] => none
          | colon :: rest3 =>
            if colon = ':' then
              match parseVal fuel rest3 with
              | none => none
              | some (v, rest4) =>
                match skipWs rest4 with
                | [] => none
                | sep :: rest5 =>
                  if sep = ',' then parseMembers fuel rest5 (dSet acc k v)
                  else if sep = chRBrace then some (.obj (dSet acc k v), rest5)
                  else none
            else none
      else none

/-- Parse the items of a JSON array after its opening bracket. -/
def parseItems : Nat → List Char → List Json → Option (Json × List Char)
  | 0, _, _ => none
  | fuel + 1, cs, acc =>
    match parseVal fuel cs with
    | none => none
    | some (v, rest) =>
      match skipWs rest with
      | [] => none
      | sep :: rest2 =>
        if sep = ',' then parseItems fuel rest2 (acc ++ [v])
        else if sep = chRBrack then some (.arr (acc ++ [v]), rest2)
        else none

end

/-- `json.loads`: parse a complete JSON document, rejecting trailing
garbage. -/
def parseJson (s : String) : Option Json :=
  match parseVal (2 * s.length + 2) s.data with
  | some (j, rest) => if skipWs rest = [] then some j else none
  | none => none

/-- Whether `pat` matches at the head of `s` (structural on the pattern,
so that a fully concrete pattern reduces against a partially symbolic
string). -/
def matchesAt (pat s : List Char) : Bool :=
  match pat with
  | [] => true
  | p :: ps =>
    match s with
    | [] => false
    | c :: cs => p == c && matchesAt ps cs

/-- One step of Python `str.replace` scanning, with explicit fuel so the
function computes in the kernel: at each position, if the (nonempty)
pattern matches, emit the replacement and jump over the match, otherwise
keep the character and move on.  Matches are non-overlapping and found
left to right, as in Python. -/
def pyRepAux (pat rep : List Char) : Nat → List Char → List Char
  | _, [] => []
  | 0, s => s
  | fuel + 1, c :: cs =>
    if matchesAt pat (c :: cs) then
      rep ++ pyRepAux pat rep fuel (List.drop (pat.length - 1) cs)
    else c :: pyRepAux pat rep fuel cs

/-- Python `s.replace(pat, rep)` for a nonempty pattern. -/
def pyReplace (s pat rep : String) : String :=
  ⟨pyRepAux pat.data rep.data s.data.length s.data⟩

/-- `decoded_line.replace("data: ", "")` — the exact string handed to
`json.loads` for a streamed line (source line 266). -/
def streamPayload (line : String) : String :=
  pyReplace line "data: " ""

/-- Python `line.startswith("data: ")` (source line 264). -/
def startsWithMarker (line : String) : Bool :=
  matchesAt "data: ".data line.data

/-- Whether `pat` occurs as a contiguous substring of `s`. -/
def hasOcc (pat : List Char) : List Char → Bool
  | [] => pat.isEmpty
  | c :: cs => matchesAt pat (c :: cs) || hasOcc pat cs

/-- A value stored in the top level of the request/template dictionary:
either an immutable value, or the alias to the single shared nested
`"inputs"` dict allocated by `DifySchema.get_schema`. -/
inductive Val where
  | js (j : Json)
  | inputsRef
deriving Repr

/-- Top level of a Python dict whose `"inputs"` entry aliases the shared
nested dict. -/
abbrev Dict := List (String × Val)

/-- Contents of the shared nested `"inputs"` dict. -/
abbrev InputsDict := List (String × Json)

/-- Resolve a stored value against the current contents of the shared
`"inputs"` dict. -/
def matVal (inputs : InputsDict) : Val → Json
  | .js j => j
  | .inputsRef => .obj inputs

/-- The JSON document `requests.post(..., json=data)` serializes: the
top-level dict with the shared `"inputs"` dict materialized. -/
def materializeBody (d : Dict) (inputs : InputsDict) : Json :=
  .obj (d.map (fun kv => (kv.1, matVal inputs kv.2)))

/-- The error message raised by `DifySchema.get_schema` for an
unrecognized type (source lines 62-65). -/
def invalidTypeMsg : String :=
  "Invalid dify_type. Must be \x27completion\x27, \x27workflow\x27, \x27agent\x27, or \x27chat\x27"

/-- `DifySchema.get_schema` (source lines 28-65): the mode-dependent base
body.  The returned pair is the top-level dict (whose `"inputs"` entry
aliases the shared nested dict) together with the initial contents of
that nested dict (empty). -/
def get_schema (dify_type user_input_key response_mode user : String) :
    Except String (Dict × InputsDict) :=
  if dify_type = "workflow" then
    .ok ([("inputs", Val.inputsRef),
          ("response_mode", .js (.str response_mode)),
          ("user", .js (.str user))], [])
  else if dify_type = "agent" then
    .ok ([("inputs", Val.inputsRef),
          ("query", .js (.str user_input_key)),
          ("response_mode", .js (.str response_mode)),
          ("user", .js (.str user))], [])
  else if dify_type = "chat" then
    .ok ([("inputs", Val.inputsRef),
          ("query", .js (.str "")),
          ("response_mode", .js (.str response_mode)),
          ("user", .js (.str user))], [])
  else if dify_type = "completion" then
    .ok ([("inputs", Val.inputsRef),
          ("response_mode", .js (.str response_mode)),
          ("user", .js (.str user))], [])
  else .error invalidTypeMsg

/-- `get_schema` followed by serialization of the fresh body (what the
Python function returns, viewed as a JSON document). -/
def get_schemaJson (dify_type user_input_key response_mode user : String) :
    Except String Json :=
  (get_schema dify_type user_input_key response_mode user).map
    (fun ti => materializeBody ti.1 ti.2)

/-- `Pipeline.Valves` (source lines 75-97) after validation: the runtime
configuration. -/
structure Valves where
  APP_NAME : String
  HOST_URL : String
  DIFY_API_KEY : String
  USER_INPUT_KEY : String
  USER_INPUTS : String
  DIFY_TYPE : String
  RESPONSE_MODE : String
  VERIFY_SSL : Bool
deriving Repr

/-- The pydantic field default of `VERIFY_SSL` (source line 97).  The
constructor always passes an explicit `VERIFY_SSL` value, so this
default is never consulted. -/
def valvesVerifySSLDefault : Bool := true

/-- A configuration with the source's `__init__` defaults for the fields
no claim varies (source lines 102-116). -/
def mkValves (dt key extras host : String) : Valves :=
  { APP_NAME := "My Dify Pipeline Local"
    HOST_URL := host
    DIFY_API_KEY := "YOUR_DIFY_API_KEY"
    USER_INPUT_KEY := key
    USER_INPUTS := extras
    DIFY_TYPE := dt
    RESPONSE_MODE := "streaming"
    VERIFY_SSL := false }

/-- A value coming from the environment (`os.getenv` returns a string
when the variable is set; `__init__` passes the Python bool `False` as
the default for `VERIFY_SSL`). -/
inductive EnvVal where
  | str (s : String)
  | bool (b : Bool)

/-- Lowercase a string (character-wise, as pydantic does before matching
boolean words). -/
def lowerStr (s : String) : String := ⟨s.data.map Char.toLower⟩

/-- Pydantic's coercion of a value to `bool` for the `VERIFY_SSL` field:
a bool passes through; a string is matched (case-insensitively) against
the accepted true/false words, anything else is a validation error. -/
def pydanticBool : EnvVal → Except String Bool
  | .bool b => .ok b
  | .str s =>
    let l := lowerStr s
    if l = "true" ∨ l = "yes" ∨ l = "on" ∨ l = "1" ∨ l = "y" ∨ l = "t" then .ok true
    else if l = "false" ∨ l = "no" ∨ l = "off" ∨ l = "0" ∨ l = "n" ∨ l = "f" then .ok false
    else .error "value could not be parsed to a boolean"

/-- `os.getenv(k, d)`. -/
def getenv (env : String → Option String) (k d : String) : String :=
  (env k).getD d

/-- `Pipeline.__init__`'s construction of `self.valves` (source lines
102-116): every field is passed explicitly, with `os.getenv` defaults;
`USER_INPUTS` falls back to the empty-object string when the variable is
unset or empty (Python truthiness); `VERIFY_SSL` is passed as
`os.getenv("VERIFY_SSL", False)`, i.e. the Python bool `False` when the
variable is unset. -/
def initValves (env : String → Option String) : Except String Valves :=
  match pydanticBool (match env "VERIFY_SSL" with
                      | some s => .str s
                      | none => .bool false) with
  | .error e => .error e
  | .ok vs =>
    .ok { APP_NAME := getenv env "APP_NAME" "My Dify Pipeline Local"
          HOST_URL := getenv env "HOST_URL" "http://host.docker.internal"
          DIFY_API_KEY := getenv env "DIFY_API_KEY" "YOUR_DIFY_API_KEY"
          USER_INPUT_KEY := getenv env "USER_INPUT_KEY" "input"
          USER_INPUTS := (match env "USER_INPUTS" with
                          | some s => if s = "" then "\x7b\x7d" else s
                          | none => "\x7b\x7d")
          DIFY_TYPE := getenv env "DIFY_TYPE" "workflow"
          RESPONSE_MODE := getenv env "RESPONSE_MODE" "streaming"
          VERIFY_SSL := vs }

/-- `Pipeline.create_api_url` (source lines 128-145). -/
def create_api_url (v : Valves) : Except String String :=
  if v.DIFY_TYPE = "workflow" then .ok (v.HOST_URL ++ "/v1/workflows/run")
  else if v.DIFY_TYPE = "agent" then .ok (v.HOST_URL ++ "/v1/chat-messages")
  else if v.DIFY_TYPE = "chat" then .ok (v.HOST_URL ++ "/v1/chat-messages")
  else if v.DIFY_TYPE = "completion" then .ok (v.HOST_URL ++ "/v1/completion-messages")
  else .error ("Invalid Dify type: " ++ v.DIFY_TYPE)

/-- One output fragment yielded by the generator: Python yields plain
strings (error messages, and parsed JSON strings, which are `str` in
Python) or a non-string parsed JSON value (the blocking-mode payload, or
a non-string event field). -/
inductive Frag where
  | text (s : String)
  | json (j : Json)
deriving Repr

/-- Yield a parsed JSON value: a JSON string is a Python `str`,
indistinguishable from any other yielded string. -/
def toFrag : Json → Frag
  | .str s => .text s
  | j => .json j

/-- Python `d[k]` on a parsed JSON value; `none` models the
`KeyError`/`TypeError` that the per-line `try` block absorbs. -/
def jGet (j : Json) (k : String) : Option Json :=
  match j with
  | .obj fields => dGet fields k
  | _ => none

/-- `d[a][b]`. -/
def jGet2 (j : Json) (a b : String) : Option Json :=
  (jGet j a).bind (fun x => jGet x b)

/-- `d[a][b][c]`. -/
def jGet3 (j : Json) (a b c : String) : Option Json :=
  (jGet2 j a b).bind (fun x => jGet x c)

/-- Python `data["event"] == name`: true exactly when the value is the
string `name` (comparison with a non-string is `False`, letting the
`elif` chain fall through). -/
def isEvent (ev : Json) (name : String) : Bool :=
  match ev with
  | .str s => s = name
  | _ => false

/-- The per-event dispatch of the streaming decoder (source lines
267-279).  A failed field access raises inside the per-line `try` and
yields nothing. -/
def eventFrags (d : Json) : List Frag :=
  match jGet d "event" with
  | none => []
  | some ev =>
    if isEvent ev "text_chunk" then
      match jGet2 d "data" "text" with
      | some t => [toFrag t]
      | none => []
    else if isEvent ev "agent_message" || isEvent ev "message" || isEvent ev "completion" then
      match jGet d "answer" with
      | some a => [toFrag a]
      | none =>
        match jGet2 d "data" "text" with
        | some t => [toFrag t]
        | none => []
    else if isEvent ev "workflow_finished" then
      match jGet3 d "data" "outputs" "output" with
      | some o => [toFrag o]
      | none => []
    else []

/-- Decoding of one streamed line (source lines 262-281): skip empty
lines; for lines starting with the marker, run `json.loads` on
`streamPayload line` and dispatch on the event; parse and lookup errors
are logged and skipped. -/
def decodeLine (line : String) : List Frag :=
  if line = "" then []
  else if startsWithMarker line then
    match parseJson (streamPayload line) with
    | some d => eventFrags d
    | none => []
  else []

/-- The observable part of a `requests` response: status code, full body
text (blocking) and the decoded lines of `iter_lines` (streaming). -/
structure HttpResponse where
  status_code : Nat
  text : String
  lines : List String
deriving Repr

/-- Decoding of the response body (source lines 260-287): streaming mode
folds `decodeLine` over the lines; blocking mode parses the whole body,
falling back to a raw-text fragment on a parse failure. -/
def decodeBody (v : Valves) (resp : HttpResponse) : List Frag :=
  if v.RESPONSE_MODE = "streaming" then
    resp.lines.flatMap decodeLine
  else
    match parseJson resp.text with
    | some j => [toFrag j]
    | none => [.text ("Failed to parse JSON response. Raw response: " ++ resp.text)]

/-- Full response handling (source lines 256-287): a non-200 status
first yields one formatted error fragment, then the body is decoded
regardless. -/
def decodeResponse (v : Valves) (resp : HttpResponse) : List Frag :=
  (if resp.status_code ≠ 200 then
    [Frag.text ("API request failed with status code " ++ toString resp.status_code ++ ": "
      ++ resp.text)]
   else []) ++ decodeBody v resp

/-- An exception escaping `Pipeline.pipe` to the caller (everything but
`requests.exceptions.RequestException`, which is caught). -/
inductive PipeError where
  | keyError (k : String)
  | typeError (m : String)
  | valueError (m : String)
  | jsonDecodeError (s : String)
deriving Repr

/-- `body["user"]["email"]` (source line 239): the caller identity.  A
missing key raises `KeyError`, a non-dict value raises `TypeError`;
either way the exception propagates (the spec's
`MissingCallerIdentityError`). -/
def callerEmail (body : Json) : Except PipeError Json :=
  match body with
  | .obj fields =>
    match dGet fields "user" with
    | none => .error (.keyError "user")
    | some u =>
      match u with
      | .obj ufields =>
        match dGet ufields "email" with
        | none => .error (.keyError "email")
        | some e => .ok e
      | _ => .error (.typeError "caller context \x27user\x27 is not a mapping")
  | _ => .error (.typeError "caller context body is not a mapping")

/-- The mode-dependent message placement (source lines 233-238),
operating on the shallow copy `data` of the template and on the shared
nested `"inputs"` dict.  A mode outside the four places nothing (the
`if`/`elif` chain has no `else`). -/
def placeMessage (v : Valves) (data : Dict) (inputs : InputsDict) (user_message : String) :
    Except PipeError (Dict × InputsDict) :=
  if v.DIFY_TYPE = "workflow" then
    match dGet data "inputs" with
    | some Val.inputsRef => .ok (data, dSet inputs v.USER_INPUT_KEY (.str user_message))
    | some (Val.js _) => .error (.typeError "item assignment on non-dict \x27inputs\x27")
    | none => .error (.keyError "inputs")
  else if v.DIFY_TYPE = "agent" ∨ v.DIFY_TYPE = "chat" then
    .ok (dSet data "query" (.js (.str user_message)), inputs)
  else if v.DIFY_TYPE = "completion" then
    match dGet data "inputs" with
    | some Val.inputsRef => .ok (data, dSet inputs "query" (.str user_message))
    | some (Val.js _) => .error (.typeError "item assignment on non-dict \x27inputs\x27")
    | none => .error (.keyError "inputs")
  else .ok (data, inputs)

/-- The extra-inputs merge (source lines 242-244): when the configured
`USER_INPUTS` string is truthy it is parsed (`json.JSONDecodeError`
propagates) and merged into the shared nested `"inputs"` dict via
`dict.update`. -/
def mergeExtras (v : Valves) (data : Dict) (inputs : InputsDict) :
    Except PipeError InputsDict :=
  if v.USER_INPUTS ≠ "" then
    match parseJson v.USER_INPUTS with
    | none => .error (.jsonDecodeError v.USER_INPUTS)
    | some (.obj extras) =>
      match dGet data "inputs" with
      | some Val.inputsRef => .ok (dictUpdate inputs extras)
      | some (Val.js _) => .error (.typeError "update on non-dict \x27inputs\x27")
      | none => .error (.keyError "inputs")
    | some _ => .error (.typeError "dict.update requires a mapping")
  else .ok inputs

/-- The HTTP request `requests.post` issues (source lines 248-254). -/
structure Request where
  url : String
  authorization : String
  body : Json
  verify : Bool
  stream : Bool
deriving Repr

/-- Assembly of the outgoing request (source lines 225-254, up to the
`requests.post` call), in source order: shallow-copy the template, place
the message by mode, set the caller identity, merge extra inputs, build
the URL.  The returned `InputsDict` is the contents of the shared nested
`"inputs"` dict after the call — the part of `self.data_schema` that the
shallow copy does not protect. -/
def assemble (v : Valves) (schemaTop : Dict) (schemaInputs : InputsDict)
    (user_message : String) (body : Json) : Except PipeError (InputsDict × Request) :=
  match placeMessage v schemaTop schemaInputs user_message with
  | .error e => .error e
  | .ok (data1, inputs1) =>
    match callerEmail body with
    | .error e => .error e
    | .ok ev =>
      let data2 := dSet data1 "user" (.js ev)
      match mergeExtras v data2 inputs1 with
      | .error e => .error e
      | .ok inputs2 =>
        match create_api_url v with
        | .error m => .error (.valueError m)
        | .ok url =>
          .ok (inputs2,
               { url := url
                 authorization := "Bearer " ++ v.DIFY_API_KEY
                 body := materializeBody data2 inputs2
                 verify := v.VERIFY_SSL
                 stream := v.RESPONSE_MODE = "streaming" })

/-- `Pipeline.pipe` (source lines 204-290).  The transport models
`requests.post`: it either raises a `RequestException` (caught, one
formatted error fragment, source lines 289-290) or returns a response,
which is then decoded.  The first component of the result is the
contents of the shared nested `"inputs"` dict after the call. -/
def pipe (v : Valves) (schemaTop : Dict) (schemaInputs : InputsDict)
    (user_message : String) (body : Json)
    (transport : Request → Except String HttpResponse) :
    Except PipeError (InputsDict × Request × List Frag) :=
  match assemble v schemaTop schemaInputs user_message body with
  | .error e => .error e
  | .ok (inputs2, req) =>
    .ok (inputs2, req,
         match transport req with
         | .error e => [Frag.text ("API request failed: " ++ e)]
         | .ok resp => decodeResponse v resp)

/-- Setting a key makes it present with the written value. -/
theorem dGet_dSet_self {α : Type} (d : List (String × α)) (k : String) (v : α) :
    dGet (dSet d k v) k = some v := by
  induction d with
  | nil => simp [dSet, dGet]
  | cons kv rest ih =>
    obtain ⟨k', v'⟩ := kv
    by_cases h : k' = k
    · subst h
      simp [dSet, dGet]
    · simp [dSet, dGet, h, ih]

/-- Lookup commutes with a value-wise map of the dictionary. -/
theorem dGet_map {α β : Type} (g : α → β) (d : List (String × α)) (k : String) :
    dGet (d.map (fun kv => (kv.1, g kv.2))) k = (dGet d k).map g := by
  induction d with
  | nil => simp [dGet]
  | cons kv rest ih =>
    by_cases h : kv.1 = k
    · simp [dGet, h]
    · simp [dGet, h, ih]

/-- A key present in the top-level dict appears, resolved, in the
serialized body. -/
theorem jGet_materializeBody (d : Dict) (i : InputsDict) (k : String) (v : Val)
    (h : dGet d k = some v) :
    jGet (materializeBody d i) k = some (matVal i v) := by
  simp [materializeBody, jGet, dGet_map, h]

/-- A list matches at the head of itself followed by anything. -/
theorem matchesAt_append_self (l t : List Char) : matchesAt l (l ++ t) = true := by
  induction l with
  | nil => simp [matchesAt]
  | cons c cs ih => simp [matchesAt, ih]

/-- On a string with no occurrence of the (nonempty) pattern, Python
`replace` is the identity, given enough fuel. -/
theorem pyRepAux_no_occ (pat : List Char) :
    ∀ (s : List Char) (fuel : Nat), s.length ≤ fuel → hasOcc pat s = false →
      pyRepAux pat [] fuel s = s := by
  intro s
  induction s with
  | nil =>
    intro fuel _ _
    cases fuel <;> rfl
  | cons c cs ih =>
    intro fuel hlen hocc
    match fuel with
    | 0 => simp at hlen
    | fuel + 1 =>
      simp only [hasOcc, Bool.or_eq_false_iff] at hocc
      simp only [pyRepAux, hocc.1, Bool.false_eq_true, if_false]
      rw [ih fuel (by simpa using Nat.lt_succ_iff.mp (Nat.lt_of_lt_of_le (Nat.lt_succ_self _) hlen)) hocc.2]

/- Concrete fixtures shared by several claims. -/

/-- The empty-object extras string `"{}"` (the `USER_INPUTS` default). -/
def emptyExtras : String := "\x7b\x7d"

/-- The template `get_schema "workflow"` builds at `__init__` with the
default configuration. -/
def wfTop : Dict :=
  [("inputs", Val.inputsRef),
   ("response_mode", Val.js (Json.str "streaming")),
   ("user", Val.js (Json.str ""))]

/-- A caller-context body carrying the nested email. -/
def callerBody0 : Json := .obj [("user", .obj [("email", .str "u@example.com")])]

/-- A transport returning an empty 200 streaming response. -/
def okTransport : Request → Except String HttpResponse := fun _ => .ok ⟨200, "", []⟩

/-- The default workflow configuration used in the concrete runs. -/
def streamValves : Valves :=
  mkValves "workflow" "input" emptyExtras "http://host.docker.internal"

/-- `parseJson` on the default extras string. -/
theorem parseJson_emptyExtras : parseJson emptyExtras = some (Json.obj []) := rfl

/-- `parseJson` on the literal `"{}"`. -/
theorem parseJson_emptyObjLit : parseJson "\x7b\x7d" = some (Json.obj []) := rfl

/-- C1.  The claim says `self.data_schema` — including its nested
`"inputs"` mapping — is unchanged after any completed `pipe` call.  The
code contradicts it: `data = self.data_schema.copy()` is a shallow copy,
so `data["inputs"][USER_INPUT_KEY] = user_message` (source line 234)
writes through the alias into the shared template.  With the default
workflow configuration and message `"hello"`, the call completes and the
shared nested `"inputs"` dict ends as `{"input": "hello"}`, not its
pre-call value `{}`; the serialized template therefore differs from its
pre-call serialization. -/
theorem C1_shared_template_mutated :
    get_schema "workflow" "input" "streaming" "" = .ok (wfTop, []) ∧
    (pipe streamValves wfTop [] "hello" callerBody0 okTransport).map (fun x => x.1)
      = .ok [("input", Json.str "hello")] ∧
    ([("input", Json.str "hello")] : InputsDict) ≠ ([] : InputsDict) ∧
    materializeBody wfTop [("input", Json.str "hello")] ≠ materializeBody wfTop [] := by
  refine ⟨rfl, rfl, by simp, ?_⟩
  simp [materializeBody, matVal, wfTop]

/-- The payload whose body itself contains the marker `"data: "`. -/
def badPayload : String := "\x7b\"q\": \"data: 1\"\x7d"

/-- C2 counterexample.  For the line `"data: " ++ badPayload` (which
starts with the marker), the string handed to `json.loads` is NOT the
line with exactly the leading prefix removed: `replace("data: ", "")`
also deletes the occurrence inside the payload. -/
theorem C2_replace_all_counterexample :
    startsWithMarker ("data: " ++ badPayload) = true ∧
    streamPayload ("data: " ++ badPayload) ≠ badPayload ∧
    streamPayload ("data: " ++ badPayload) = "\x7b\"q\": \"1\"\x7d" := by
  refine ⟨rfl, ?_, rfl⟩
  decide

/-- C2 amended.  The string handed to the JSON parser is the line with
every occurrence of `"data: "` removed; this coincides with removal of
the leading prefix exactly when the payload after the marker contains no
further occurrence of `"data: "`. -/
theorem C2_payload_is_prefix_stripped (payload : String)
    (h : hasOcc "data: ".data payload.data = false) :
    streamPayload ("data: " ++ payload) = payload := by
  have h2 : pyRepAux "data: ".data [] (payload.data.length + 5) payload.data
      = payload.data :=
    pyRepAux_no_occ _ _ _ (by omega) h
  calc streamPayload ("data: " ++ payload)
      = ⟨pyRepAux "data: ".data [] (payload.data.length + 5) payload.data⟩ := rfl
    _ = ⟨payload.data⟩ := by rw [h2]
    _ = payload := rfl

/-- C2 witness: a concrete payload without an inner marker occurrence is
recovered exactly. -/
theorem C2_payload_is_prefix_stripped_witness :
    hasOcc "data: ".data "\x7b\"q\": \"1\"\x7d".data = false ∧
    streamPayload ("data: " ++ "\x7b\"q\": \"1\"\x7d") = "\x7b\"q\": \"1\"\x7d" :=
  ⟨by decide, C2_payload_is_prefix_stripped "\x7b\"q\": \"1\"\x7d" (by decide)⟩

/-- The configured extras used by C3. -/
def overrideExtras : String := "\x7b\"input\": \"override\"\x7d"

/-- C3.  Extra inputs are merged after the message placement, so they
win on key collision: with mode `workflow`, input key `"input"`, message
`"hello"` and extras `{"input": "override"}`, the transmitted body has
`inputs["input"] == "override"`. -/
theorem C3_extras_override_message :
    (pipe (mkValves "workflow" "input" overrideExtras "http://host.docker.internal")
        wfTop [] "hello" callerBody0 okTransport).map
      (fun x => jGet2 x.2.1.body "inputs" "input") = .ok (some (Json.str "override")) := rfl

/-- C4 counterexample.  For the unrecognized mode `"bogus"`, both
functions do raise, but the schema builder's error message is a fixed
string that does NOT contain the offending value (while the endpoint
resolver's message does), so the claim that both errors name the
offending value is false. -/
theorem C4_builder_error_lacks_value :
    get_schemaJson "bogus" "k" "r" "u" = .error invalidTypeMsg ∧
    hasOcc "bogus".data invalidTypeMsg.data = false ∧
    create_api_url (mkValves "bogus" "k" emptyExtras "h")
      = .error ("Invalid Dify type: " ++ "bogus") ∧
    hasOcc "bogus".data ("Invalid Dify type: " ++ "bogus").data = true := by
  refine ⟨rfl, by decide, rfl, by decide⟩

/-- C4 amended.  For each of the four modes the schema builder returns
exactly the fields of the table and the endpoint resolver the matching
suffix; any other mode makes both raise: the endpoint resolver's message
names the offending value, while the schema builder raises the fixed
message `invalidTypeMsg`, which does not include the value. -/
theorem C4_schema_and_endpoints (key rm u host m : String)
    (h1 : m ≠ "workflow") (h2 : m ≠ "agent") (h3 : m ≠ "chat") (h4 : m ≠ "completion") :
    get_schemaJson "workflow" key rm u
      = .ok (.obj [("inputs", .obj []), ("response_mode", .str rm), ("user", .str u)]) ∧
    get_schemaJson "agent" key rm u
      = .ok (.obj [("inputs", .obj []), ("query", .str key),
                   ("response_mode", .str rm), ("user", .str u)]) ∧
    get_schemaJson "chat" key rm u
      = .ok (.obj [("inputs", .obj []), ("query", .str ""),
                   ("response_mode", .str rm), ("user", .str u)]) ∧
    get_schemaJson "completion" key rm u
      = .ok (.obj [("inputs", .obj []), ("response_mode", .str rm), ("user", .str u)]) ∧
    create_api_url (mkValves "workflow" key emptyExtras host)
      = .ok (host ++ "/v1/workflows/run") ∧
    create_api_url (mkValves "agent" key emptyExtras host)
      = .ok (host ++ "/v1/chat-messages") ∧
    create_api_url (mkValves "chat" key emptyExtras host)
      = .ok (host ++ "/v1/chat-messages") ∧
    create_api_url (mkValves "completion" key emptyExtras host)
      = .ok (host ++ "/v1/completion-messages") ∧
    get_schemaJson m key rm u = .error invalidTypeMsg ∧
    create_api_url (mkValves m key emptyExtras host)
      = .error ("Invalid Dify type: " ++ m) := by
  refine ⟨rfl, rfl, rfl, rfl, rfl, rfl, rfl, rfl, ?_, ?_⟩
  · simp [get_schemaJson, get_schema, h1, h2, h3, h4, Except.map]
  · simp [create_api_url, mkValves, h1, h2, h3, h4]

/-- C4 witness: the error halves of `C4_schema_and_endpoints` at the
concrete mode `"bogus"`. -/
theorem C4_schema_and_endpoints_witness :
    get_schemaJson "bogus" "ky" "rm" "us" = .error invalidTypeMsg ∧
    create_api_url (mkValves "bogus" "ky" emptyExtras "hh")
      = .error ("Invalid Dify type: " ++ "bogus") :=
  ⟨(C4_schema_and_endpoints "ky" "rm" "us" "hh" "bogus"
      (by decide) (by decide) (by decide) (by decide)).2.2.2.2.2.2.2.2.1,
   (C4_schema_and_endpoints "ky" "rm" "us" "hh" "bogus"
      (by decide) (by decide) (by decide) (by decide)).2.2.2.2.2.2.2.2.2⟩

/- The synthetic stream lines of C5. -/

def l1 : String := "data: \x7b\"event\":\"text_chunk\",\"data\":\x7b\"text\":\"A\"\x7d\x7d"

def l2 : String :=
  "data: \x7b\"event\":\"workflow_finished\",\"data\":\x7b\"outputs\":\x7b\"output\":\"DONE\"\x7d\x7d\x7d"

def lbad : String := "data: \x7bmalformed"

def lother : String := "data: \x7b\"event\":\"ping\",\"data\":\x7b\x7d\x7d"

/-- C5.  The two synthetic lines decode to exactly `["A", "DONE"]`; a
malformed line between them is skipped without suppressing either
fragment; an unknown event emits nothing. -/
theorem C5_stream_decode :
    decodeBody streamValves ⟨200, "", [l1, l2]⟩ = [Frag.text "A", Frag.text "DONE"] ∧
    decodeBody streamValves ⟨200, "", [l1, lbad, l2]⟩ = [Frag.text "A", Frag.text "DONE"] ∧
    decodeBody streamValves ⟨200, "", [l1, lother, l2]⟩ = [Frag.text "A", Frag.text "DONE"] ∧
    decodeLine lbad = [] ∧
    decodeLine lother = [] :=
  ⟨rfl, rfl, rfl, rfl, rfl⟩

/-- The request assembled by the default workflow configuration for
message `"hello"` and caller `callerBody0`. -/
def reqWF : Request :=
  { url := "http://host.docker.internal/v1/workflows/run"
    authorization := "Bearer YOUR_DIFY_API_KEY"
    body := .obj [("inputs", .obj [("input", .str "hello")]),
                  ("response_mode", .str "streaming"),
                  ("user", .str "u@example.com")]
    verify := false
    stream := true }

/-- C6.  Whenever assembly succeeds and the transport raises (connection
refused, timeout, TLS failure — `requests.exceptions.RequestException`),
the call returns normally with exactly one fragment, the formatted
error string, and nothing after it; no fault propagates.  (The
quantified conclusion holds for the transport that fails on the issued
request.) -/
theorem C6_transport_failure_single_fragment (v : Valves) (top : Dict)
    (inputs : InputsDict) (msg : String) (body : Json) (e : String)
    (i : InputsDict) (r : Request)
    (h : assemble v top inputs msg body = .ok (i, r)) :
    pipe v top inputs msg body (fun _ => .error e)
      = .ok (i, r, [Frag.text ("API request failed: " ++ e)]) := by
  simp [pipe, h]

/-- C6 witness: a concrete refused connection yields the single error
fragment. -/
theorem C6_transport_failure_witness :
    pipe streamValves wfTop [] "hello" callerBody0 (fun _ => .error "connection refused")
      = .ok ([("input", Json.str "hello")], reqWF,
             [Frag.text ("API request failed: " ++ "connection refused")]) :=
  C6_transport_failure_single_fragment _ _ _ _ _ _ _ _ rfl

/-- C7.  When assembly succeeds and the transport returns a response
with a non-200 status, the call yields the formatted status-error
fragment first and then still decodes the body (`decodeBody` is the
decode used in the 200 case). -/
theorem C7_non200_yields_error_then_decodes (v : Valves) (top : Dict)
    (inputs : InputsDict) (msg : String) (body : Json) (resp : HttpResponse)
    (i : InputsDict) (r : Request)
    (h : assemble v top inputs msg body = .ok (i, r))
    (hs : resp.status_code ≠ 200) :
    pipe v top inputs msg body (fun _ => .ok resp)
      = .ok (i, r, Frag.text ("API request failed with status code "
          ++ toString resp.status_code ++ ": " ++ resp.text) :: decodeBody v resp) := by
  simp [pipe, h, decodeResponse, hs]

/-- The non-200 streaming response used as the C7 witness. -/
def resp500 : HttpResponse := ⟨500, "oops", [l1]⟩

/-- C7 witness: a concrete 500 response with one well-formed stream line
still decodes that line after the error fragment. -/
theorem C7_non200_witness :
    pipe streamValves wfTop [] "hello" callerBody0 (fun _ => .ok resp500)
      = .ok ([("input", Json.str "hello")], reqWF,
             Frag.text ("API request failed with status code "
               ++ toString resp500.status_code ++ ": " ++ resp500.text)
               :: decodeBody streamValves resp500) :=
  C7_non200_yields_error_then_decodes _ _ _ _ _ _ _ _ rfl (by decide)

/-- C8.  First half: if the message placement succeeded but the caller
context lacks the nested `user.email`, the call fails with exactly the
error raised by that access (`KeyError`/`TypeError`, the spec's
`MissingCallerIdentityError`) — and it does so for EVERY transport,
i.e. before any HTTP request is issued.  Second half: whenever the
caller identity is present and assembly succeeds, the transmitted
body's `"user"` field is exactly that email value. -/
theorem C8_caller_identity :
    (∀ (v : Valves) (top : Dict) (inputs : InputsDict) (msg : String) (body : Json)
       (err : PipeError) (p : Dict × InputsDict)
       (tr : Request → Except String HttpResponse),
       placeMessage v top inputs msg = .ok p → callerEmail body = .error err →
       pipe v top inputs msg body tr = .error err) ∧
    (∀ (v : Valves) (top : Dict) (inputs : InputsDict) (msg : String) (body : Json)
       (ev : Json) (i : InputsDict) (r : Request),
       callerEmail body = .ok ev → assemble v top inputs msg body = .ok (i, r) →
       jGet r.body "user" = some ev) := by
  constructor
  · intro v top inputs msg body err p tr hp he
    simp [pipe, assemble, hp, he]
  · intro v top inputs msg body ev i r he ha
    cases hp : placeMessage v top inputs msg with
    | error e => simp [assemble, hp] at ha
    | ok p =>
      obtain ⟨data1, inputs1⟩ := p
      simp only [assemble, hp, he] at ha
      cases hm : mergeExtras v (dSet data1 "user" (.js ev)) inputs1 with
      | error e => simp [hm] at ha
      | ok inputs2 =>
        cases hu : create_api_url v with
        | error m => simp [hm, hu] at ha
        | ok url =>
          simp only [hm, hu, Except.ok.injEq, Prod.mk.injEq] at ha
          obtain ⟨hi, hr⟩ := ha
          subst hr
          have : dGet (dSet data1 "user" (Val.js ev)) "user" = some (Val.js ev) :=
            dGet_dSet_self _ _ _
          simpa [matVal] using jGet_materializeBody _ inputs2 _ _ this

/-- C8 witness: with the default workflow configuration, an empty caller
context makes the call fail with the `KeyError` for `"user"` for the
(arbitrary) 200 transport, and with the identity present the
transmitted `"user"` field is the email. -/
theorem C8_caller_identity_witness :
    pipe streamValves wfTop [] "hello" (Json.obj []) okTransport
      = .error (.keyError "user") ∧
    jGet reqWF.body "user" = some (Json.str "u@example.com") :=
  ⟨C8_caller_identity.1 streamValves wfTop [] "hello" (Json.obj [])
      (.keyError "user") (wfTop, dSet [] "input" (Json.str "hello")) okTransport rfl rfl,
   C8_caller_identity.2 streamValves wfTop [] "hello" callerBody0
      (Json.str "u@example.com") [("input", Json.str "hello")] reqWF rfl rfl⟩

/-- The caller-context body with a parametric email. -/
def mkBody (email : String) : Json := .obj [("user", .obj [("email", .str email)])]

/-- C9.  With the schema built by `get_schema` for each mode (and the
default empty extras), the user message lands where the mode dictates:
`workflow` at `inputs[inputKey]`, `agent` and `chat` at the top-level
`query`, `completion` at `inputs["query"]`. -/
theorem C9_message_placement (key msg email host : String)
    (tr : Request → Except String HttpResponse) :
    (∀ top i0, get_schema "workflow" key "streaming" "" = .ok (top, i0) →
       (pipe (mkValves "workflow" key emptyExtras host) top i0 msg (mkBody email) tr).map
         (fun x => jGet2 x.2.1.body "inputs" key) = .ok (some (Json.str msg))) ∧
    (∀ top i0, get_schema "agent" key "streaming" "" = .ok (top, i0) →
       (pipe (mkValves "agent" key emptyExtras host) top i0 msg (mkBody email) tr).map
         (fun x => jGet x.2.1.body "query") = .ok (some (Json.str msg))) ∧
    (∀ top i0, get_schema "chat" key "streaming" "" = .ok (top, i0) →
       (pipe (mkValves "chat" key emptyExtras host) top i0 msg (mkBody email) tr).map
         (fun x => jGet x.2.1.body "query") = .ok (some (Json.str msg))) ∧
    (∀ top i0, get_schema "completion" key "streaming" "" = .ok (top, i0) →
       (pipe (mkValves "completion" key emptyExtras host) top i0 msg (mkBody email) tr).map
         (fun x => jGet2 x.2.1.body "inputs" "query") = .ok (some (Json.str msg))) := by
  refine ⟨?_, ?_, ?_, ?_⟩ <;>
    · intro top i0 h
      simp [get_schema] at h
      obtain ⟨h1, h2⟩ := h
      subst h1
      subst h2
      simp [pipe, assemble, placeMessage, mergeExtras, create_api_url, callerEmail,
            mkValves, mkBody, materializeBody, matVal, dictUpdate, jGet, jGet2,
            parseJson_emptyObjLit, emptyExtras, dSet, dGet, Except.map]

/-- C9 witness: the four placements at concrete inputs. -/
theorem C9_message_placement_witness :
    (pipe (mkValves "workflow" "input" emptyExtras "h") wfTop [] "hi"
        (mkBody "e@x") okTransport).map
      (fun x => jGet2 x.2.1.body "inputs" "input") = .ok (some (Json.str "hi")) ∧
    (pipe (mkValves "agent" "input" emptyExtras "h")
        [("inputs", Val.inputsRef), ("query", Val.js (Json.str "input")),
         ("response_mode", Val.js (Json.str "streaming")), ("user", Val.js (Json.str ""))]
        [] "hi" (mkBody "e@x") okTransport).map
      (fun x => jGet x.2.1.body "query") = .ok (some (Json.str "hi")) ∧
    (pipe (mkValves "chat" "input" emptyExtras "h")
        [("inputs", Val.inputsRef), ("query", Val.js (Json.str "")),
         ("response_mode", Val.js (Json.str "streaming")), ("user", Val.js (Json.str ""))]
        [] "hi" (mkBody "e@x") okTransport).map
      (fun x => jGet x.2.1.body "query") = .ok (some (Json.str "hi")) ∧
    (pipe (mkValves "completion" "input" emptyExtras "h")
        [("inputs", Val.inputsRef),
         ("response_mode", Val.js (Json.str "streaming")), ("user", Val.js (Json.str ""))]
        [] "hi" (mkBody "e@x") okTransport).map
      (fun x => jGet2 x.2.1.body "inputs" "query") = .ok (some (Json.str "hi")) :=
  ⟨(C9_message_placement "input" "hi" "e@x" "h" okTransport).1 _ _ rfl,
   (C9_message_placement "input" "hi" "e@x" "h" okTransport).2.1 _ _ rfl,
   (C9_message_placement "input" "hi" "e@x" "h" okTransport).2.2.1 _ _ rfl,
   (C9_message_placement "input" "hi" "e@x" "h" okTransport).2.2.2 _ _ rfl⟩

/-- C10.  The pydantic field default for `VERIFY_SSL` is `True`, but the
constructor always passes an explicit value — `os.getenv("VERIFY_SSL",
False)` — so with the variable unset the resulting configuration has
TLS verification OFF. -/
theorem C10_verify_ssl_default_off (env : String → Option String)
    (h : env "VERIFY_SSL" = none) :
    valvesVerifySSLDefault = true ∧
    (initValves env).map (fun v => v.VERIFY_SSL) = .ok false := by
  refine ⟨rfl, ?_⟩
  simp [initValves, h, pydanticBool, Except.map]

/-- C10 witness: the empty environment. -/
theorem C10_verify_ssl_default_off_witness :
    valvesVerifySSLDefault = true ∧
    (initValves (fun _ => none)).map (fun v => v.VERIFY_SSL) = .ok false :=
  C10_verify_ssl_default_off (fun _ => none) rfl
